import Mathlib

/-!
# EquityLens calculation engine — verification of the quantitative core

Shallow embedding of the calculation engine of the EquityLens repository
(`calculation_engine/risk/risk_metrics.py`, `risk/stress_testing.py`,
`factors/exposures.py`, `optimization/efficient_frontier.py`,
`optimization/constraints.py`, `server.py`) over exact rational arithmetic,
together with theorems settling the specification claims about it.

Machine floats are modelled by `ℚ`; pandas/numpy reductions (sum, mean,
sorting, linear-interpolation percentile) are translated explicitly.
Diagnostic fields of the Python result dictionaries whose values need a real
square root (volatility, skewness, kurtosis) are carried as their rational
precursors (variance) or omitted; no claim refers to them.
-/

namespace EquityLens

/-- Association-list lookup, i.e. Python `d[k]` / `k in d` on a dict viewed as
its (insertion-ordered) key/value pairs. Returns `none` when the key is absent. -/
def lookupStr {α : Type} (key : String) : List (String × α) → Option α
  | [] => none
  | kv :: rest => if kv.1 = key then some kv.2 else lookupStr key rest

/-- Python dict assignment `d[k] = v`: replaces the value under an existing key
in place, otherwise appends the new pair at the end. -/
def dictInsert {α : Type} (m : List (String × α)) (k : String) (v : α) :
    List (String × α) :=
  if m.any (fun p => p.1 = k) then
    m.map (fun p => if p.1 = k then (k, v) else p)
  else m ++ [(k, v)]

/-- Model of `xs.sort_values()` / ascending sort of a numeric pandas Series. (For a
fixed multiset of rationals the ascending-sorted list is unique, so the choice
of sorting algorithm is immaterial.) -/
def sortQ (xs : List ℚ) : List ℚ :=
  List.insertionSort (fun a b => a ≤ b) xs

/-- Model of `np.mean` / `Series.mean`: sum divided by length (`0` on the empty list,
where pandas yields NaN; no claim touches that case). -/
def sampleMean (xs : List ℚ) : ℚ := xs.sum / (xs.length : ℚ)

/-- Model of `Series.std(ddof=1) ** 2`: the unbiased sample variance. The Python code
reports the square root; the rational model carries the variance itself. -/
def sampleVariance (xs : List ℚ) : ℚ :=
  ((xs.map fun x => (x - sampleMean xs) ^ 2).sum) / ((xs.length : ℚ) - 1)

/-- Model of `Series.quantile(q)` / `np.percentile(·, 100*q)` with the default linear
interpolation, applied to an already ascending-sorted list `v` of length `n`:
position `h = q·(n−1)`, lower index `i = ⌊h⌋`, and the value
`v[i] + (h−i)·(v[i+1] − v[i])` (clamped to `v[i]` when `i+1` is out of range). -/
def quantileSorted (v : List ℚ) (q : ℚ) : ℚ :=
  let h : ℚ := q * ((v.length : ℚ) - 1)
  let i : ℕ := (Int.floor h).toNat
  let lo := v.getD i 0
  let hi := v.getD (i + 1) lo
  lo + (h - (i : ℚ)) * (hi - lo)

/-- Result dictionary of `calculate_historical_var`
(`risk/risk_metrics.py`, lines 74–86). `cvar` is `none` exactly when the
tail mean is NaN (empty tail). The diagnostic `volatility`/`skewness`/
`kurtosis` floats (square roots of rational quantities) are not carried. -/
structure HistVarResult where
  var : ℚ
  cvar : Option ℚ
  confidence_level : ℚ
  observations : ℕ
  var_percentile : ℚ
  mean_return : ℚ
  deriving DecidableEq

/-- Model of `calculate_historical_var(returns_df, confidence_level)`
(`risk/risk_metrics.py`, lines 52–86): sort the return sample, take the
`(1−c)` linear-interpolation quantile, negate it for VaR, and negate the mean
of the returns at or below the quantile for CVaR. -/
def calculate_historical_var (returns : List ℚ) (confidence_level : ℚ) :
    HistVarResult :=
  let sorted_returns := sortQ returns
  let var_percentile := 1 - confidence_level
  let var_value := quantileSorted sorted_returns var_percentile
  let tail := sorted_returns.filter (fun x => x ≤ var_value)
  { var := -var_value
    cvar := if tail.isEmpty then none else some (-(sampleMean tail))
    confidence_level := confidence_level
    observations := returns.length
    var_percentile := var_percentile
    mean_return := sampleMean returns }

/-- The 5-observation sample of the specification scenario for historical VaR. -/
def varScenarioSample : List ℚ := [-1/50, 1/100, -1/20, 3/100, 0]

lemma sortQ_perm (xs : List ℚ) : (sortQ xs).Perm xs :=
  List.perm_insertionSort _ xs

lemma sortQ_sorted (xs : List ℚ) : List.Sorted (fun a b => a ≤ b) (sortQ xs) :=
  List.sorted_insertionSort _ xs

/-- On a non-empty ascending-sorted list, the linear-interpolation quantile for
`q ∈ [0,1]` is at least the first (smallest) element. -/
lemma head_le_quantileSorted (v : List ℚ) (hv : v ≠ [])
    (hs : List.Sorted (fun a b => a ≤ b) v) {q : ℚ} (h0 : 0 ≤ q) (h1 : q ≤ 1) :
    v.getD 0 0 ≤ quantileSorted v q := by
  have hn : 0 < v.length := List.length_pos.mpr hv
  have hn1 : (1 : ℚ) ≤ (v.length : ℚ) := by exact_mod_cast hn
  simp only [quantileSorted]
  set h : ℚ := q * ((v.length : ℚ) - 1) with hdefh
  set i : ℕ := (Int.floor h).toNat with hdefi
  have hh0 : 0 ≤ h := mul_nonneg h0 (by linarith)
  have hhle : h ≤ (v.length : ℚ) - 1 := by nlinarith
  have hfl0 : 0 ≤ Int.floor h := Int.floor_nonneg.mpr hh0
  have hicast : ((i : ℕ) : ℚ) = ((Int.floor h : ℤ) : ℚ) := by
    rw [hdefi]; exact_mod_cast congrArg (fun z : ℤ => (z : ℚ)) (Int.toNat_of_nonneg hfl0)
  have hile : ((i : ℕ) : ℚ) ≤ h := by rw [hicast]; exact_mod_cast Int.floor_le h
  have hfl_le : Int.floor h ≤ (v.length : ℤ) - 1 := by
    have hcast : ((v.length : ℚ) - 1) = (((v.length : ℤ) - 1 : ℤ) : ℚ) := by push_cast; ring
    have := Int.floor_le_floor hhle
    rwa [hcast, Int.floor_intCast] at this
  have hilt : i < v.length := by omega
  have hhead_le_lo : v.getD 0 0 ≤ v.getD i 0 := by
    rw [List.getD_eq_getElem v 0 hilt, List.getD_eq_getElem v 0 hn]
    rcases Nat.eq_zero_or_pos i with hz | hpos
    · simp only [hz]; exact le_refl _
    · have := @List.Sorted.rel_get_of_lt ℚ (fun a b => a ≤ b) v hs ⟨0, hn⟩ ⟨i, hilt⟩ hpos
      simpa [List.get_eq_getElem] using this
  have hlo_le_hi : v.getD i 0 ≤ v.getD (i + 1) (v.getD i 0) := by
    rcases lt_or_le (i + 1) v.length with hlt | hge
    · rw [List.getD_eq_getElem v _ hlt, List.getD_eq_getElem v 0 hilt]
      have := @List.Sorted.rel_get_of_lt ℚ (fun a b => a ≤ b) v hs ⟨i, hilt⟩
        ⟨i + 1, hlt⟩ (by simp)
      simpa [List.get_eq_getElem] using this
    · rw [List.getD_eq_default v _ hge]
  have hγ : 0 ≤ h - (i : ℚ) := by linarith
  have hprod : 0 ≤ (h - (i : ℚ)) * (v.getD (i + 1) (v.getD i 0) - v.getD i 0) :=
    mul_nonneg hγ (by linarith)
  linarith

/-- Mean (`np.mean`) of a non-empty list all of whose elements are at most `q` is at
most `q`. -/
lemma sampleMean_le_of_forall_le (S : List ℚ) (q : ℚ) (hne : S ≠ [])
    (hall : ∀ x ∈ S, x ≤ q) : sampleMean S ≤ q := by
  have hlen : 0 < (S.length : ℚ) := by exact_mod_cast List.length_pos.mpr hne
  have hsum : S.sum ≤ (S.length : ℚ) * q := by
    have := List.sum_le_card_nsmul S q hall
    rwa [nsmul_eq_mul] at this
  rw [sampleMean, div_le_iff₀ hlen]
  linarith

/-- Claim C1 — counterexample. On the 5-return sample
`[-0.02, 0.01, -0.05, 0.03, 0.00]` at 80% confidence, `calculate_historical_var`
returns `var = 0.026` (exactly `13/500`), which differs from the claimed
`≈ 0.05` by `0.024`, far outside any reasonable reading of "approximately". -/
theorem historical_var_scenario_not_five_percent :
    (calculate_historical_var varScenarioSample (4/5)).var = 13/500 ∧
      |(calculate_historical_var varScenarioSample (4/5)).var - 5/100| > 1/100 := by
  have h1 : (calculate_historical_var varScenarioSample (4/5)).var = 13/500 := by
    norm_num [calculate_historical_var, varScenarioSample, sortQ, quantileSorted,
      List.insertionSort, List.orderedInsert]
  refine ⟨h1, ?_⟩
  rw [h1, show (13:ℚ)/500 - 5/100 = -(3/125) by norm_num, abs_neg,
    abs_of_pos (by norm_num)]
  norm_num

/-- Claim C1, amended. On the 5-return sample `[-0.02, 0.01, -0.05, 0.03, 0.00]`
at 80% confidence, `calculate_historical_var` returns `var = 0.026` — the
negation of the linear-interpolation 20th-percentile return
`-0.05 + 0.8·(-0.02 − (−0.05)) = −0.026` (pandas' default interpolation) —
and `cvar = 0.05`, the negated mean of the returns at or below that
percentile (only `-0.05`). -/
theorem historical_var_scenario_values :
    (calculate_historical_var varScenarioSample (4/5)).var = 13/500 ∧
      (calculate_historical_var varScenarioSample (4/5)).cvar = some (1/20) := by
  constructor <;>
    norm_num [calculate_historical_var, varScenarioSample, sortQ, quantileSorted,
      sampleMean, List.insertionSort, List.orderedInsert, List.filter]

/-- Claim C5 — counterexample. On the all-positive two-observation sample
`[0.01, 0.02]` at 50% confidence, the historical method reports
`var = -0.015 < 0`, refuting "historical VaR(c) ≥ 0 for every confidence level
in (0,1) and every non-empty sample". -/
theorem historical_var_negative_sample :
    (calculate_historical_var [1/100, 1/50] (1/2)).var < 0 := by
  norm_num [calculate_historical_var, sortQ, quantileSorted,
    List.insertionSort, List.orderedInsert]

/-- Claim C5, amended. For every confidence level `c ∈ (0,1)` and every
non-empty return sample, the historical method's `cvar` is defined and is at
least its `var` (`CVaR(c) ≥ VaR(c)`); the claim's other half, `VaR(c) ≥ 0`,
fails for samples whose `(1−c)`-percentile return is positive
(see the counterexample). -/
theorem historical_cvar_ge_var (returns : List ℚ) (c : ℚ)
    (hne : returns ≠ []) (hc0 : 0 < c) (hc1 : c < 1) :
    ∃ cv, (calculate_historical_var returns c).cvar = some cv ∧
      (calculate_historical_var returns c).var ≤ cv := by
  have hvne : sortQ returns ≠ [] := by
    intro hnil
    have hp := sortQ_perm returns
    rw [hnil] at hp
    exact hne hp.symm.eq_nil
  have hsorted := sortQ_sorted returns
  set v := sortQ returns with hv
  set qv := quantileSorted v (1 - c) with hqv
  have hhead : v.getD 0 0 ≤ qv :=
    head_le_quantileSorted v hvne hsorted (by linarith) (by linarith)
  have h0lt : 0 < v.length := List.length_pos.mpr hvne
  have hmem : v.getD 0 0 ∈ v := by
    rw [List.getD_eq_getElem v 0 h0lt]; exact List.getElem_mem h0lt
  have hmemf : v.getD 0 0 ∈ v.filter (fun x => x ≤ qv) :=
    List.mem_filter.mpr ⟨hmem, by simpa using hhead⟩
  have hfne : v.filter (fun x => x ≤ qv) ≠ [] := List.ne_nil_of_mem hmemf
  have hfe : (v.filter (fun x => x ≤ qv)).isEmpty = false := by
    simpa [List.isEmpty_iff] using hfne
  have hallle : ∀ x ∈ v.filter (fun x => x ≤ qv), x ≤ qv := by
    intro x hx
    simpa using (List.mem_filter.mp hx).2
  have hmean := sampleMean_le_of_forall_le _ qv hfne hallle
  have hcvar : (calculate_historical_var returns c).cvar
      = some (-(sampleMean (v.filter (fun x => x ≤ qv)))) := by
    simp only [calculate_historical_var, ← hv, ← hqv, hfe, Bool.false_eq_true,
      if_false]
  have hvar : (calculate_historical_var returns c).var = -qv := by
    simp only [calculate_historical_var, ← hv, ← hqv]
  exact ⟨-(sampleMean (v.filter (fun x => x ≤ qv))), hcvar, by
    rw [hvar]; linarith⟩

/-- Witness for `historical_cvar_ge_var` at the specification's 5-return
sample and 80% confidence. -/
theorem historical_cvar_ge_var_witness :
    ∃ cv, (calculate_historical_var varScenarioSample (4/5)).cvar = some cv ∧
      (calculate_historical_var varScenarioSample (4/5)).var ≤ cv :=
  historical_cvar_ge_var varScenarioSample (4/5)
    (by simp [varScenarioSample]) (by norm_num) (by norm_num)

/-! ## Stress testing (`risk/stress_testing.py`) -/

/-- One entry of the `position_values` dict the three stress tests build
(symbol ↦ quantity, latest price, quantity × latest price). -/
structure PosVal where
  quantity : ℚ
  current_price : ℚ
  current_value : ℚ
  deriving DecidableEq

/-- Model of `portfolio_data`, as the stress tests consume it: the rows of the
positions frame (symbol, quantity — repeated symbols are distinct rows), and
the latest available close per symbol (`prices[symbol].iloc[-1]`; a symbol is
present here iff it is a column of the price frame). -/
structure PortfolioData where
  positions : List (String × ℚ)
  latestPrice : List (String × ℚ)

/-- The shared loop of the three stress tests (`stress_testing.py`, e.g. lines
106–120): iterate the position rows, skip symbols with no price column, build
the `position_values` dict (repeated symbols overwrite their dict entry) and
accumulate `portfolio_value += quantity × latest_price` for every priced row. -/
def posStep (prices : List (String × ℚ)) (acc : List (String × PosVal) × ℚ)
    (pos : String × ℚ) : List (String × PosVal) × ℚ :=
  match lookupStr pos.1 prices with
  | some price =>
    (dictInsert acc.1 pos.1 ⟨pos.2, price, pos.2 * price⟩, acc.2 + pos.2 * price)
  | none => acc

def scanPositions (pd : PortfolioData) : List (String × PosVal) × ℚ :=
  pd.positions.foldl (posStep pd.latestPrice) ([], 0)

/-- The aggregate current portfolio value every stress test starts from. -/
def portfolioValue (pd : PortfolioData) : ℚ := (scanPositions pd).2

/-- The hard-coded portfolio factor-beta table of `factor_shock_test`
(`stress_testing.py`, lines 186–193). -/
def factor_betas : List (String × ℚ) :=
  [("Market", 21/20), ("Size", 1/5), ("Value", -3/20),
   ("Momentum", 1/10), ("Quality", 1/4), ("Volatility", -3/10)]

/-- One entry of `factor_impacts` (factor, shock, beta, beta × shock). -/
structure FactorImpact where
  factor : String
  shock : ℚ
  beta : ℚ
  impact : ℚ
  deriving DecidableEq

/-- Result of `factor_shock_test` (lines 236–244); the `factor_shocks` echo of
the input and the `scenario_type` tag are omitted. -/
structure FactorShockResult where
  current_portfolio_value : ℚ
  stressed_portfolio_value : ℚ
  absolute_change : ℚ
  percentage_change : ℚ
  factor_impacts : List FactorImpact
  deriving DecidableEq

/-- Model of `factor_shock_test(portfolio_data, factor_shocks)` (`stress_testing.py`,
lines 163–244): sum `beta × shock` over the supplied factors that appear in
the beta table (others are skipped), apply the total multiplicatively to the
current portfolio value, and report the percentage change guarded by
`portfolio_value > 0`. -/
def factor_shock_test (pd : PortfolioData) (factor_shocks : List (String × ℚ)) :
    FactorShockResult :=
  let pv := portfolioValue pd
  let impacts := factor_shocks.filterMap (fun fs =>
    (lookupStr fs.1 factor_betas).map (fun b => FactorImpact.mk fs.1 fs.2 b (b * fs.2)))
  let total := (impacts.map FactorImpact.impact).sum
  let stressed := pv * (1 + total)
  { current_portfolio_value := pv
    stressed_portfolio_value := stressed
    absolute_change := stressed - pv
    percentage_change := if pv > 0 then (stressed - pv) / pv else 0
    factor_impacts := impacts }

/-- One entry of the per-position impact dict of the historical/custom tests
(`current_value`, applied shock, `stressed_value`; the derived `value_change`
and `pct_change` fields are determined by these and omitted). -/
structure PositionImpact where
  current_value : ℚ
  shock : ℚ
  stressed_value : ℚ
  deriving DecidableEq

/-- Result shared by `historical_scenario_test` and `custom_shock_test`
(scenario metadata omitted). -/
structure StressResult where
  current_portfolio_value : ℚ
  stressed_portfolio_value : ℚ
  absolute_change : ℚ
  percentage_change : ℚ
  position_impacts : List (String × PositionImpact)
  deriving DecidableEq

/-- Model of `custom_shock_test(portfolio_data, asset_shocks)` (`stress_testing.py`,
lines 246–314): each `position_values` entry is stressed by its shock from the
map (`0` when absent), via `stressed_value = current_value × (1 + shock)`; the
percentage change is guarded by `portfolio_value > 0`. -/
def custom_shock_test (pd : PortfolioData) (asset_shocks : List (String × ℚ)) :
    StressResult :=
  let s := scanPositions pd
  let stressedEntries := s.1.map (fun p =>
    (p.1, PositionImpact.mk p.2.current_value ((lookupStr p.1 asset_shocks).getD 0)
      (p.2.current_value * (1 + (lookupStr p.1 asset_shocks).getD 0))))
  let total := (stressedEntries.map (fun e => e.2.stressed_value)).sum
  { current_portfolio_value := s.2
    stressed_portfolio_value := total
    absolute_change := total - s.2
    percentage_change := if s.2 > 0 then (total - s.2) / s.2 else 0
    position_impacts := stressedEntries }

/-- A historical scenario of the fixed catalogue: period, description and the
per-symbol shock returns (including the `"_default"` entry). -/
structure Scenario where
  period : String × String
  description : String
  asset_returns : List (String × ℚ)

/-- The fixed scenario catalogue of `historical_scenario_test`
(`stress_testing.py`, lines 50–89). -/
def scenarioCatalogue : List (String × Scenario) :=
  [("financial_crisis_2008",
    { period := ("2008-09-01", "2008-11-30")
      description := "2008 Financial Crisis (Sep-Nov 2008)"
      asset_returns := [("SPY", -30/100), ("QQQ", -35/100), ("EEM", -40/100),
        ("TLT", 10/100), ("GLD", 5/100), ("_default", -25/100)] }),
   ("covid_crash_2020",
    { period := ("2020-02-19", "2020-03-23")
      description := "COVID-19 Market Crash (Feb-Mar 2020)"
      asset_returns := [("SPY", -34/100), ("QQQ", -28/100), ("EEM", -33/100),
        ("TLT", 15/100), ("GLD", -5/100), ("_default", -30/100)] }),
   ("rate_shock_2022",
    { period := ("2022-01-01", "2022-06-30")
      description := "Interest Rate Shock (H1 2022)"
      asset_returns := [("SPY", -20/100), ("QQQ", -30/100), ("TLT", -25/100),
        ("HYG", -15/100), ("SHY", -5/100), ("_default", -15/100)] })]

/-- Model of `historical_scenario_test(portfolio_data, scenario_name)`
(`stress_testing.py`, lines 38–161): unknown names raise; otherwise each
priced position is shocked by its catalogue return (falling back to the
scenario's `"_default"` entry, which every catalogue scenario has), with
`stressed_value = quantity × (current_price × (1 + shock))`, and the same
`portfolio_value > 0`-guarded percentage change. -/
def historical_scenario_test (pd : PortfolioData) (scenario_name : String) :
    Except String StressResult :=
  match lookupStr scenario_name scenarioCatalogue with
  | none => Except.error ("Unknown historical scenario: " ++ scenario_name)
  | some sc =>
    let s := scanPositions pd
    let stressedEntries := s.1.map (fun p =>
      (p.1, PositionImpact.mk p.2.current_value
        ((lookupStr p.1 sc.asset_returns).getD
          ((lookupStr "_default" sc.asset_returns).getD 0))
        (p.2.quantity * (p.2.current_price *
          (1 + (lookupStr p.1 sc.asset_returns).getD
            ((lookupStr "_default" sc.asset_returns).getD 0))))))
    let total := (stressedEntries.map (fun e => e.2.stressed_value)).sum
    Except.ok
      { current_portfolio_value := s.2
        stressed_portfolio_value := total
        absolute_change := total - s.2
        percentage_change := if s.2 > 0 then (total - s.2) / s.2 else 0
        position_impacts := stressedEntries }

/-- The $100,000 portfolio of the factor-shock specification scenario:
one priced position worth 100 × 1000. -/
def shockScenarioPortfolio : PortfolioData := ⟨[("SPY", 100)], [("SPY", 1000)]⟩

/-- The specification's aggregate factor impact: `Σ beta[f]·shock[f]` over the
supplied factors, a factor absent from the beta table contributing `0`
(written from the spec's words, for comparison with the code's accumulation). -/
def aggregateFactorImpact (factor_shocks : List (String × ℚ)) : ℚ :=
  (factor_shocks.map (fun fs => ((lookupStr fs.1 factor_betas).getD 0) * fs.2)).sum

/-- The code's accumulated `total_factor_impact` equals the specification's
`Σ beta[f]·shock[f]` with absent factors contributing nothing. -/
lemma factorImpacts_sum (factor_shocks : List (String × ℚ)) :
    ((factor_shocks.filterMap (fun fs => (lookupStr fs.1 factor_betas).map
        (fun b => FactorImpact.mk fs.1 fs.2 b (b * fs.2)))).map
      FactorImpact.impact).sum = aggregateFactorImpact factor_shocks := by
  induction factor_shocks with
  | nil => simp [aggregateFactorImpact]
  | cons head tail ih =>
    cases hb : lookupStr head.1 factor_betas with
    | none => simp [aggregateFactorImpact, List.filterMap_cons, hb,
        ih, aggregateFactorImpact]
    | some b => simp [aggregateFactorImpact, List.filterMap_cons, hb, ih,
        aggregateFactorImpact]

/-- Claim C6. (i) On the $100,000 portfolio with `factor_shocks = {"Market": -0.10}`
and the engine's beta `Market = 1.05`, `factor_shock_test` reports
`percentage_change = -0.105` and `stressed_portfolio_value = 89,500`.
(ii) In general the stressed value is the current value times
`1 + Σ beta[f]·shock[f]` over the supplied factors. (iii) A factor absent from
the beta table contributes nothing: appending such a shock leaves the entire
result unchanged. -/
theorem factor_shock_test_spec :
    ((factor_shock_test shockScenarioPortfolio [("Market", -1/10)]).percentage_change
        = -(21/200) ∧
      (factor_shock_test shockScenarioPortfolio
        [("Market", -1/10)]).stressed_portfolio_value = 89500) ∧
    (∀ pd factor_shocks, (factor_shock_test pd factor_shocks).stressed_portfolio_value
        = portfolioValue pd * (1 + aggregateFactorImpact factor_shocks)) ∧
    (∀ pd factor_shocks f s, lookupStr f factor_betas = none →
      factor_shock_test pd (factor_shocks ++ [(f, s)])
        = factor_shock_test pd factor_shocks) := by
  refine ⟨⟨?_, ?_⟩, ?_, ?_⟩
  · norm_num [factor_shock_test, portfolioValue, scanPositions, posStep,
      shockScenarioPortfolio, lookupStr, factor_betas, dictInsert,
      List.filterMap_cons, List.filterMap_nil]
  · norm_num [factor_shock_test, portfolioValue, scanPositions, posStep,
      shockScenarioPortfolio, lookupStr, factor_betas, dictInsert,
      List.filterMap_cons, List.filterMap_nil]
  · intro pd factor_shocks
    simp only [factor_shock_test, factorImpacts_sum]
  · intro pd factor_shocks f s hf
    simp [factor_shock_test, List.filterMap_append, List.filterMap_cons, hf]

/-- Witness for `factor_shock_test_spec`: its absent-factor part applied to the
scenario portfolio and a factor (`"Inflation"`) that is not in the beta table. -/
theorem factor_shock_test_spec_witness :
    factor_shock_test shockScenarioPortfolio ([("Market", -1/10)] ++ [("Inflation", 1/2)])
      = factor_shock_test shockScenarioPortfolio [("Market", -1/10)] :=
  factor_shock_test_spec.2.2 shockScenarioPortfolio [("Market", -1/10)]
    "Inflation" (1/2) (by simp [lookupStr, factor_betas])

/-- Inserting a key none of the dict's entries carries appends it at the end. -/
lemma dictInsert_fresh {α : Type} (m : List (String × α)) (k : String) (v : α)
    (h : ∀ e ∈ m, e.1 ≠ k) : dictInsert m k v = m ++ [(k, v)] := by
  have hany : m.any (fun p => p.1 = k) = false := by
    simp only [List.any_eq_false, decide_eq_true_eq]
    exact h
  simp [dictInsert, hany]

/-- Over position rows with pairwise-distinct symbols (and an accumulator
whose dict keys avoid them), the accumulated `portfolio_value` equals the sum
of the `current_value` entries of the `position_values` dict. -/
lemma posStep_foldl_sum (prices : List (String × ℚ)) (positions : List (String × ℚ))
    (acc : List (String × PosVal) × ℚ)
    (hnodup : (positions.map Prod.fst).Nodup)
    (hdisj : ∀ p ∈ positions, ∀ e ∈ acc.1, e.1 ≠ p.1)
    (hsum : ((acc.1.map (fun e => e.2.current_value)).sum) = acc.2) :
    (((positions.foldl (posStep prices) acc).1.map
        (fun e => e.2.current_value)).sum)
      = (positions.foldl (posStep prices) acc).2 := by
  induction positions generalizing acc with
  | nil => simpa using hsum
  | cons p ps ih =>
    have hnd : p.1 ∉ ps.map Prod.fst ∧ (ps.map Prod.fst).Nodup := by
      simpa [List.nodup_cons] using hnodup
    simp only [List.foldl_cons]
    cases hlk : lookupStr p.1 prices with
    | none =>
      have hstep : posStep prices acc p = acc := by simp [posStep, hlk]
      rw [hstep]
      exact ih _ hnd.2 (fun q hq e he => hdisj q (List.mem_cons_of_mem p hq) e he) hsum
    | some price =>
      have hfresh : ∀ e ∈ acc.1, e.1 ≠ p.1 :=
        fun e he => hdisj p (List.mem_cons_self p ps) e he
      have hstep : posStep prices acc p
          = (acc.1 ++ [(p.1, ⟨p.2, price, p.2 * price⟩)], acc.2 + p.2 * price) := by
        simp [posStep, hlk, dictInsert_fresh acc.1 p.1 _ hfresh]
      rw [hstep]
      refine ih _ hnd.2 ?_ ?_
      · intro q hq e he
        rcases List.mem_append.mp he with hold | hnew
        · exact hdisj q (List.mem_cons_of_mem p hq) e hold
        · have he1 : e.1 = p.1 := by
            rcases List.mem_singleton.mp hnew with rfl; rfl
          rw [he1]
          intro heq
          exact hnd.1 (heq ▸ List.mem_map_of_mem Prod.fst hq)
      · simp [hsum]

/-- `current_value`-sum of the `position_values` dict equals the accumulated
portfolio value when the position rows carry pairwise-distinct symbols. -/
lemma scanPositions_sum (pd : PortfolioData)
    (hnodup : (pd.positions.map Prod.fst).Nodup) :
    (((scanPositions pd).1.map (fun e => e.2.current_value)).sum)
      = (scanPositions pd).2 :=
  posStep_foldl_sum pd.latestPrice pd.positions ([], 0) hnodup
    (by intro p hp e he; simp at he) (by simp)

/-- A one-position short portfolio (quantity −1 at price 100): its current
value is negative, where the claim and the code part ways. -/
def shortPortfolio : PortfolioData := ⟨[("AAA", -1)], [("AAA", 100)]⟩

/-- A portfolio holding two lots of the same symbol: the stressed total only
counts the last lot while the current value counts both. -/
def dupPortfolio : PortfolioData := ⟨[("AAA", 1), ("AAA", 2)], [("AAA", 10)]⟩

/-- Claim C7 — counterexample. (i) On a short portfolio with current value
−100, a 50% custom shock changes the value by −50; the division
`Δvalue / current_value = 1/2` is perfectly defined, yet the code reports
`percentage_change = 0` (its guard tests `current_value > 0`, not
`current_value ≠ 0`). (ii) On a portfolio holding two lots of the same symbol,
the empty (all-zero) shock map changes the reported value from 30 to 20 and
reports `percentage_change = -1/3 ≠ 0`, because the per-position dict keeps
only the last lot while the current value sums all lots. -/
theorem custom_shock_percentage_counterexample :
    ((custom_shock_test shortPortfolio [("AAA", 1/2)]).current_portfolio_value = -100 ∧
      (custom_shock_test shortPortfolio [("AAA", 1/2)]).absolute_change = -50 ∧
      (custom_shock_test shortPortfolio [("AAA", 1/2)]).percentage_change = 0) ∧
    ((custom_shock_test dupPortfolio []).current_portfolio_value = 30 ∧
      (custom_shock_test dupPortfolio []).stressed_portfolio_value = 20 ∧
      (custom_shock_test dupPortfolio []).percentage_change = -(1/3)) := by
  refine ⟨⟨?_, ?_, ?_⟩, ⟨?_, ?_, ?_⟩⟩ <;>
    norm_num [custom_shock_test, scanPositions, posStep, shortPortfolio,
      dupPortfolio, lookupStr, dictInsert]

/-- Claim C7, amended. For each of the three stress tests, the reported
`percentage_change` equals `Δvalue / current_value` when the current portfolio
value is strictly positive, and is `0` when the current value is `≤ 0` (the
code's guard tests `> 0`, so a zero **or negative** current value reports 0);
and a custom stress test whose shock map assigns 0 to every symbol it lists
(in particular the empty map) leaves the stressed value equal to the current
value and reports `percentage_change = 0`, provided the portfolio's position
rows carry pairwise-distinct symbols. -/
theorem stress_percentage_change_spec :
    (∀ pd shocks, (0 < (custom_shock_test pd shocks).current_portfolio_value →
        (custom_shock_test pd shocks).percentage_change
          = (custom_shock_test pd shocks).absolute_change
            / (custom_shock_test pd shocks).current_portfolio_value) ∧
      ((custom_shock_test pd shocks).current_portfolio_value ≤ 0 →
        (custom_shock_test pd shocks).percentage_change = 0)) ∧
    (∀ pd shocks, (0 < (factor_shock_test pd shocks).current_portfolio_value →
        (factor_shock_test pd shocks).percentage_change
          = (factor_shock_test pd shocks).absolute_change
            / (factor_shock_test pd shocks).current_portfolio_value) ∧
      ((factor_shock_test pd shocks).current_portfolio_value ≤ 0 →
        (factor_shock_test pd shocks).percentage_change = 0)) ∧
    (∀ pd name r, historical_scenario_test pd name = Except.ok r →
      (0 < r.current_portfolio_value →
        r.percentage_change = r.absolute_change / r.current_portfolio_value) ∧
      (r.current_portfolio_value ≤ 0 → r.percentage_change = 0)) ∧
    (∀ pd shocks, (pd.positions.map Prod.fst).Nodup →
      (∀ sym val, lookupStr sym shocks = some val → val = 0) →
      (custom_shock_test pd shocks).stressed_portfolio_value
          = (custom_shock_test pd shocks).current_portfolio_value ∧
        (custom_shock_test pd shocks).percentage_change = 0) := by
  refine ⟨?_, ?_, ?_, ?_⟩
  · intro pd shocks
    constructor
    · intro hpos
      simp only [custom_shock_test] at hpos ⊢
      rw [if_pos hpos]
    · intro hle
      simp only [custom_shock_test] at hle ⊢
      rw [if_neg (by exact not_lt.mpr hle)]
  · intro pd shocks
    constructor
    · intro hpos
      simp only [factor_shock_test] at hpos ⊢
      rw [if_pos hpos]
    · intro hle
      simp only [factor_shock_test] at hle ⊢
      rw [if_neg (by exact not_lt.mpr hle)]
  · intro pd name r hok
    cases hsc : lookupStr name scenarioCatalogue with
    | none => rw [historical_scenario_test, hsc] at hok; exact absurd hok (by simp)
    | some sc =>
      rw [historical_scenario_test, hsc] at hok
      have hr := Except.ok.inj hok
      subst hr
      constructor
      · intro hpos
        simp only at hpos ⊢
        rw [if_pos hpos]
      · intro hle
        simp only at hle ⊢
        rw [if_neg (by exact not_lt.mpr hle)]
  · intro pd shocks hnodup hzero
    have hsum := scanPositions_sum pd hnodup
    have hshock : ∀ e ∈ (scanPositions pd).1,
        ((lookupStr e.1 shocks).getD 0 : ℚ) = 0 := by
      intro e he
      cases hlk : lookupStr e.1 shocks with
      | none => simp
      | some val => simpa using hzero e.1 val hlk
    have hstressed : (((scanPositions pd).1.map (fun p =>
        (p.1, PositionImpact.mk p.2.current_value ((lookupStr p.1 shocks).getD 0)
          (p.2.current_value * (1 + (lookupStr p.1 shocks).getD 0))))).map
        (fun e => e.2.stressed_value)).sum = (scanPositions pd).2 := by
      rw [List.map_map]
      have hcongr : (scanPositions pd).1.map
          ((fun e : String × PositionImpact => e.2.stressed_value) ∘ (fun p =>
            (p.1, PositionImpact.mk p.2.current_value ((lookupStr p.1 shocks).getD 0)
              (p.2.current_value * (1 + (lookupStr p.1 shocks).getD 0)))))
          = (scanPositions pd).1.map (fun e => e.2.current_value) := by
        refine List.map_congr_left ?_
        intro p hp
        simp [Function.comp, hshock p hp]
      rw [hcongr, hsum]
    constructor
    · simp only [custom_shock_test]
      exact hstressed
    · simp only [custom_shock_test]
      rw [hstressed]
      simp

/-- Witness for `stress_percentage_change_spec`: the guard part on the
$100,000 scenario portfolio under a −10% custom shock, and the zero-shock part
on the same portfolio under the empty shock map. -/
theorem stress_percentage_change_spec_witness :
    ((0 < (custom_shock_test shockScenarioPortfolio
        [("SPY", -1/10)]).current_portfolio_value →
      (custom_shock_test shockScenarioPortfolio [("SPY", -1/10)]).percentage_change
        = (custom_shock_test shockScenarioPortfolio [("SPY", -1/10)]).absolute_change
          / (custom_shock_test shockScenarioPortfolio
              [("SPY", -1/10)]).current_portfolio_value) ∧
      ((custom_shock_test shockScenarioPortfolio
          [("SPY", -1/10)]).current_portfolio_value ≤ 0 →
        (custom_shock_test shockScenarioPortfolio
          [("SPY", -1/10)]).percentage_change = 0)) ∧
    ((custom_shock_test shockScenarioPortfolio []).stressed_portfolio_value
        = (custom_shock_test shockScenarioPortfolio []).current_portfolio_value ∧
      (custom_shock_test shockScenarioPortfolio []).percentage_change = 0) :=
  ⟨stress_percentage_change_spec.1 shockScenarioPortfolio [("SPY", -1/10)],
    stress_percentage_change_spec.2.2.2 shockScenarioPortfolio []
      (by simp [shockScenarioPortfolio]) (by intro sym val h; simp [lookupStr] at h)⟩

/-! ## Factor engine (`factors/exposures.py`) -/

/-- A factor-return frame: the factor column names and the date-indexed rows
(one list of values per date, in column order; dates as naturals). -/
structure FactorFrame where
  cols : List String
  rows : List (ℕ × List ℚ)

/-- Model of the factor-column selection spelled out in `exposures.py` lines
31–43, as a function of the aligned frame's column names. The
`mkt_rf`/`smb`/`hml` branch is tested **first**; the `rmw`/`cma` branch fires
only when that test fails, i.e. when at least one of `mkt_rf`/`smb`/`hml` is
absent — and its body then subscripts the frame with all five column labels
(`aligned_data[["mkt_rf", "smb", "hml", "rmw", "cma"]]`), which raises
`KeyError` for the missing ones; otherwise every non-`portfolio_return`
column is used, as both the regressor set and the reported factor names.
(On the module as it stands this logic is dead text — see
`calculate_exposures` — so this models what the written branches would
compute were they reached.) -/
def selectFactorColumns (cols : List String) :
    Except String (List String × List String) :=
  if "mkt_rf" ∈ cols ∧ "smb" ∈ cols ∧ "hml" ∈ cols then
    Except.ok (["mkt_rf", "smb", "hml"], ["Market", "Size", "Value"])
  else if "rmw" ∈ cols ∧ "cma" ∈ cols then
    Except.error "KeyError: columns not in index"
  else
    Except.ok (cols.filter (fun c => c ≠ "portfolio_return"),
      cols.filter (fun c => c ≠ "portfolio_return"))

/-- The NameError every call of `calculate_exposures` raises (the Python
message carries quote characters around the name; this model text drops
them). `exposures.py` contains no import statements, so the module-level
name `pd` its body uses is unbound; the in-function import on line 13 binds
only `calculate_portfolio_returns`, whose own module does import pandas. -/
def pdNameError : String := "NameError: name pd is not defined"

/-- Model of `calculate_exposures(portfolio_data, factor_returns)`
(`exposures.py` lines 1–74). The module never imports pandas or statsmodels,
so after the portfolio-return computation (line 14, which succeeds — it runs
in `returns.py`, which has its imports) the very next statement,
`pd.merge(...)` on line 17, raises `NameError`: the inner join, the
20-observation guard with its insufficient-data `ValueError` (line 26), the
factor-set selection (lines 31–43, `selectFactorColumns`) and the regression
are all unreachable, whatever the arguments are. -/
def calculate_exposures (portfolio_returns : List (ℕ × ℚ))
    (factor_returns : FactorFrame) : Except String (List String × List String) :=
  Except.error pdNameError

/-! ## Job orchestration (`server.py`) -/

/-- One record of the `calculation_jobs` dict:
`{"status": ..., "progress": ..., "result": ..., "error": ...}`. The status is
the string the code assigns, `result`/`error` are `None` until set. -/
structure JobRec (α : Type) where
  status : String
  progress : ℚ
  result : Option α
  error : Option String
  deriving DecidableEq

/-- The record created at submission (`server.py` e.g. line 149):
`{"status": "queued", "progress": 0, "result": None, "error": None}`. -/
def initialJob (α : Type) : JobRec α := ⟨"queued", 0, none, none⟩

/-- One in-place mutation of a job record, as the executing tasks perform
them field by field. -/
inductive JobMut (α : Type) where
  | setStatus (s : String)
  | setProgress (p : ℚ)
  | setResult (r : α)
  | setError (e : String)

def applyMut {α : Type} (j : JobRec α) : JobMut α → JobRec α
  | .setStatus s => { j with status := s }
  | .setProgress p => { j with progress := p }
  | .setResult r => { j with result := some r }
  | .setError e => { j with error := some e }

/-- All intermediate states of a job record under a mutation sequence,
starting from the freshly created record (the creation state included). -/
def jobTrace {α : Type} (ms : List (JobMut α)) : List (JobRec α) :=
  List.scanl applyMut (initialJob α) ms

/-- The job record after the executing task has finished. -/
def finalJob {α : Type} (ms : List (JobMut α)) : JobRec α :=
  ms.foldl applyMut (initialJob α)

/-- The mutation sequence every `execute_*` task in `server.py` performs
(lines 111–143, 161–181, 202–239, 258–292): first `status = "running"`, then
the progress checkpoints its body reaches (a prefix of 0.1/0.3/…), then — in
this order — either `status = "completed"`, `progress = 1.0`,
`result = ...` on normal return, or `status = "failed"`, `error = str(e)`
when the `try` body raises. -/
def taskEvents {α : Type} (checkpoints : List ℚ) (outcome : Except String α) :
    List (JobMut α) :=
  match outcome with
  | Except.ok r =>
    [JobMut.setStatus "running"] ++ checkpoints.map JobMut.setProgress
      ++ [JobMut.setStatus "completed", JobMut.setProgress 1, JobMut.setResult r]
  | Except.error e =>
    [JobMut.setStatus "running"] ++ checkpoints.map JobMut.setProgress
      ++ [JobMut.setStatus "failed", JobMut.setError e]

/-- Model of `get_job_status(job_id)` (`server.py` lines 294–310): an unknown job id
raises 404 (modelled as the error case); a known one returns the record's
fields. -/
def get_job_status {α : Type} (calculation_jobs : List (String × JobRec α))
    (job_id : String) : Except String (String × JobRec α) :=
  match lookupStr job_id calculation_jobs with
  | none => Except.error ("Job " ++ job_id ++ " not found")
  | some j => Except.ok (job_id, j)

/-- Model of `execute_factor_analysis` (`server.py` lines 258–292) as a mutation
sequence: after the 0.1/0.3/0.5 checkpoints (session, portfolio data, factor
returns — taken as succeeding here; their failures route through the same
`except` branch) the task calls `calculate_exposures`, which always raises
`NameError` on the module as it stands (see its doc); the raised message ends the
job `failed`. The success arm mirrors the source's shape (0.7/0.9 checkpoints
then completion, lines 273–287) but is unreachable. -/
def execute_factor_analysis (portfolio_returns : List (ℕ × ℚ))
    (factor_returns : FactorFrame) : List (JobMut (List String × List String)) :=
  match calculate_exposures portfolio_returns factor_returns with
  | Except.ok sel => taskEvents [1/10, 3/10, 1/2, 7/10, 9/10] (Except.ok sel)
  | Except.error e => taskEvents [1/10, 3/10, 1/2] (Except.error e)

/-! ## The optimization task and the shadowed `constraints` name
(`server.py` lines 202–239) -/

/-- Python values a request's `constraints` field (pydantic `Dict[str, Any]`)
and its members can take. -/
inductive PyVal where
  | pyDict (entries : List (String × PyVal))
  | pyStr (s : String)
  | pyNum (q : ℚ)
  | pyList (elems : List PyVal)

def pyTypeName : PyVal → String
  | .pyDict _ => "dict"
  | .pyStr _ => "str"
  | .pyNum _ => "float"
  | .pyList _ => "list"

/-- The attribute names the Python builtin types of `PyVal` define (for dicts
the complete public method set; only the *absence* of `build_constraint_set`
on every builtin type matters below). -/
def builtinAttrs : PyVal → List String
  | .pyDict _ => ["clear", "copy", "fromkeys", "get", "items", "keys", "pop",
      "popitem", "setdefault", "update", "values"]
  | .pyStr _ => ["find", "format", "join", "lower", "replace", "split",
      "strip", "upper"]
  | .pyNum _ => ["imag", "real"]
  | .pyList _ => ["append", "clear", "copy", "count", "extend", "index",
      "insert", "pop", "remove", "reverse", "sort"]

/-- Python attribute lookup `v.attr` on a builtin value: raises
`AttributeError` when the type defines no such attribute. -/
def pyGetattr (v : PyVal) (attr : String) : Except String Unit :=
  if attr ∈ builtinAttrs v then Except.ok ()
  else Except.error
    ("AttributeError: " ++ pyTypeName v ++ " object has no attribute " ++ attr)

/-- The exception text the optimization task records. -/
def attrErrorMsg : String :=
  "AttributeError: dict object has no attribute build_constraint_set"

/-- Model of `execute_optimization(job_id, portfolio_id, universe, objective,
constraints, start_date, end_date)` (`server.py` lines 202–239) as a mutation
sequence. Inside the function body the name `constraints` denotes the
**parameter** (the request's constraints dict): in Python a function
parameter shadows the module imported under the same name
(`from optimization import efficient_frontier, constraints`, line 21) for the
whole body. The call `constraints.build_constraint_set(universe_data,
constraints)` on line 219 is therefore an attribute lookup on that dict value,
modelled by `pyGetattr`; its `AttributeError` is caught by the task's `except`
branch. A failure of the data fetch (progress 0.1 reached, fetch raises) goes
through the same branch earlier. -/
def execute_optimization (fetch : Except String (List (String × ℚ)))
    (constraints : PyVal) : List (JobMut Unit) :=
  match fetch with
  | Except.error e => taskEvents [1/10] (Except.error e)
  | Except.ok _ =>
    match pyGetattr constraints "build_constraint_set" with
    | Except.error e => taskEvents [1/10, 3/10] (Except.error e)
    | Except.ok _ => taskEvents [1/10, 3/10, 1/2] (Except.ok ())

/-- The joined dataset a `fama_french_5` factor-analysis job produces: the
factor frame `get_factor_returns(db, "fama_french_5", ...)` returns carries
exactly the columns `mkt_rf`, `smb`, `hml`, `rmw`, `cma`
(`factors/factor_model.py` lines 63–83); 20 joined observations. -/
def ff5Frame : FactorFrame :=
  ⟨["mkt_rf", "smb", "hml", "rmw", "cma"],
   (List.range 20).map (fun d => (d, [0, 0, 0, 0, 0]))⟩

/-- Twenty portfolio-return observations on the same dates. -/
def ff5Returns : List (ℕ × ℚ) := (List.range 20).map (fun d => (d, 1/100))

/-- Claim C2, a code bug. On the dataset a `fama_french_5` factor-analysis
job produces (all five Fama-French columns, 20 joined observations),
`calculate_exposures` does not regress on the 5-factor set: it raises
`NameError` before any join or branch selection, because `exposures.py`
never imports pandas/statsmodels. Nor could the selection logic in its dead
text ever choose the 5-factor set, on this or any other column set: the first
branch fires whenever `mkt_rf`/`smb`/`hml` are all present and returns the
3-factor set, while the `rmw`/`cma` branch — commented "For Fama-French
5-factor model" in the source — fires only when one of those three columns is
missing and then raises `KeyError` at its five-column subscript, and the
custom branch returns identical column and name lists, never the 5-factor
pair. -/
theorem five_factor_selection_unreachable :
    calculate_exposures ff5Returns ff5Frame = Except.error pdNameError ∧
      selectFactorColumns ("portfolio_return" :: ff5Frame.cols)
        = Except.ok (["mkt_rf", "smb", "hml"], ["Market", "Size", "Value"]) ∧
      ∀ cols, selectFactorColumns cols
        ≠ Except.ok (["mkt_rf", "smb", "hml", "rmw", "cma"],
            ["Market", "Size", "Value", "Profitability", "Investment"]) := by
  refine ⟨rfl, ?_, ?_⟩
  · have hcond : "mkt_rf" ∈ ("portfolio_return" :: ff5Frame.cols)
        ∧ "smb" ∈ ("portfolio_return" :: ff5Frame.cols)
        ∧ "hml" ∈ ("portfolio_return" :: ff5Frame.cols) := by decide
    simp only [selectFactorColumns]
    rw [if_pos hcond]
  · intro cols heq
    simp only [selectFactorColumns] at heq
    split_ifs at heq
    · exact absurd (Except.ok.inj heq) (by decide)
    · have hp := Except.ok.inj heq
      have h1 := congrArg Prod.fst hp
      have h2 := congrArg Prod.snd hp
      simp only at h1 h2
      rw [h1] at h2
      exact absurd h2 (by decide)

/-- Claim C8, a code bug. For every factor-analysis input — in particular
every input whose inner join would carry fewer than 20 observations —
`calculate_exposures` raises the `NameError` caused by the module's
missing imports, not the insufficient-data error (the guard on line 26,
is dead text); the job still ends `failed`, never `completed`, but the
recorded error is the `NameError` text. -/
theorem factor_analysis_jobs_fail_with_name_error
    (portfolio_returns : List (ℕ × ℚ)) (factor_returns : FactorFrame) :
    calculate_exposures portfolio_returns factor_returns
        = Except.error pdNameError ∧
      (finalJob (execute_factor_analysis portfolio_returns factor_returns)).status
        = "failed" ∧
      (finalJob (execute_factor_analysis portfolio_returns factor_returns)).error
        = some pdNameError ∧
      (finalJob (execute_factor_analysis portfolio_returns factor_returns)).result
        = none ∧
      ∀ s ∈ jobTrace (execute_factor_analysis portfolio_returns factor_returns),
        s.status ≠ "completed" := by
  refine ⟨rfl, ?_, ?_, ?_, ?_⟩ <;>
    simp [execute_factor_analysis, calculate_exposures, taskEvents, finalJob,
      jobTrace, applyMut, initialJob, List.scanl]

/-- Witness for `factor_analysis_jobs_fail_with_name_error`: a
single-observation return series against a factor frame with no rows (a join
of 0 < 20 observations, the claim's trigger — though the failure is
input-independent). -/
theorem factor_analysis_jobs_fail_with_name_error_witness :
    calculate_exposures [(0, 1/100)] ⟨["mkt_rf", "smb", "hml"], []⟩
        = Except.error pdNameError ∧
      (finalJob (execute_factor_analysis [(0, 1/100)]
        ⟨["mkt_rf", "smb", "hml"], []⟩)).status = "failed" ∧
      (finalJob (execute_factor_analysis [(0, 1/100)]
        ⟨["mkt_rf", "smb", "hml"], []⟩)).error = some pdNameError ∧
      (finalJob (execute_factor_analysis [(0, 1/100)]
        ⟨["mkt_rf", "smb", "hml"], []⟩)).result = none ∧
      ∀ s ∈ jobTrace (execute_factor_analysis [(0, 1/100)]
        ⟨["mkt_rf", "smb", "hml"], []⟩), s.status ≠ "completed" :=
  factor_analysis_jobs_fail_with_name_error [(0, 1/100)]
    ⟨["mkt_rf", "smb", "hml"], []⟩

/-- Claim C3. Whatever the request's constraints dict contains and however the
data fetch goes, an optimization job always ends `failed` — the parameter
`constraints` shadows the imported `constraints` module, so building the
constraint set is an attribute lookup on a plain dict and raises
`AttributeError` — with the exception text recorded in `error`, no result,
and no state of its lifecycle ever `completed`. -/
theorem optimization_jobs_always_fail (entries : List (String × PyVal))
    (fetch : Except String (List (String × ℚ))) :
    (finalJob (execute_optimization fetch (PyVal.pyDict entries))).status
        = "failed" ∧
      (finalJob (execute_optimization fetch (PyVal.pyDict entries))).result
        = none ∧
      (finalJob (execute_optimization fetch (PyVal.pyDict entries))).error
        ≠ none ∧
      (∀ u, fetch = Except.ok u →
        (finalJob (execute_optimization fetch (PyVal.pyDict entries))).error
          = some attrErrorMsg) ∧
      ∀ s ∈ jobTrace (execute_optimization fetch (PyVal.pyDict entries)),
        s.status ≠ "completed" := by
  have hattr : pyGetattr (PyVal.pyDict entries) "build_constraint_set"
      = Except.error attrErrorMsg := by
    simp only [pyGetattr, builtinAttrs, pyTypeName]
    rw [if_neg (by decide)]
    rfl
  cases fetch with
  | error e =>
    refine ⟨?_, ?_, ?_, ?_, ?_⟩ <;>
      simp [execute_optimization, taskEvents, finalJob, jobTrace, applyMut,
        initialJob, List.scanl]
  | ok univ =>
    refine ⟨?_, ?_, ?_, ?_, ?_⟩ <;>
      simp [execute_optimization, hattr, taskEvents, finalJob, jobTrace,
        applyMut, initialJob, List.scanl]

/-- Witness for `optimization_jobs_always_fail`: the exception-text part on an
empty constraints dict with a successful one-symbol data fetch. -/
theorem optimization_jobs_always_fail_witness :
    (finalJob (execute_optimization (Except.ok [("AAPL", 100)])
        (PyVal.pyDict []))).error = some attrErrorMsg :=
  (optimization_jobs_always_fail [] (Except.ok [("AAPL", 100)])).2.2.2.1
    [("AAPL", 100)] rfl

/-- A predicate preserved by every mutation of a sequence holds at every
intermediate job state. -/
lemma jobTrace_invariant {α : Type} (P : JobRec α → Prop) (ms : List (JobMut α))
    (j : JobRec α) (hj : P j)
    (hstep : ∀ s m, P s → m ∈ ms → P (applyMut s m)) :
    ∀ s ∈ List.scanl applyMut j ms, P s := by
  induction ms generalizing j with
  | nil =>
    intro s hs
    simp only [List.scanl] at hs
    rcases List.mem_singleton.mp hs with rfl
    exact hj
  | cons m rest ih =>
    intro s hs
    rw [List.scanl] at hs
    rcases List.mem_cons.mp hs with rfl | hs2
    · exact hj
    · exact ih (applyMut j m) (hstep j m hj (List.mem_cons_self m rest))
        (fun s2 m2 hP hm => hstep s2 m2 hP (List.mem_cons_of_mem m hm)) s hs2

/-- Claim C10 — counterexample. Immediately after the `status = "completed"`
assignment and before the `progress = 1.0` assignment that follows it (trace
state 3 of a risk task that succeeded after its 0.1 checkpoint), the job
record reads `completed` with `progress = 0.1 ≠ 1`: "progress equals 1.0
whenever status is completed" fails at that status update. -/
theorem completed_state_with_stale_progress :
    ((jobTrace (taskEvents [1/10] (Except.ok (0 : ℚ)))).getD 3 (initialJob ℚ)).status
        = "completed" ∧
      ((jobTrace (taskEvents [1/10] (Except.ok (0 : ℚ)))).getD 3 (initialJob ℚ)).progress
        ≠ 1 := by
  constructor <;>
    norm_num [jobTrace, taskEvents, applyMut, initialJob, List.scanl]

/-- Claim C10, amended. Through every state of an executing task's mutation
sequence the job's status is one of `queued`/`running`/`completed`/`failed`
and `result`/`error` are never both populated; once the task has finished,
`progress = 1` whenever the status is `completed` (during the run this can be
violated transiently, between the `status = "completed"` assignment and the
`progress = 1.0` assignment one statement later — see the counterexample);
and polling an unknown job identifier yields the not-found error, not a
record. -/
theorem job_lifecycle_invariants :
    (∀ (α : Type) (checkpoints : List ℚ) (outcome : Except String α),
      ∀ s ∈ jobTrace (taskEvents checkpoints outcome),
        (s.status = "queued" ∨ s.status = "running" ∨ s.status = "completed"
            ∨ s.status = "failed") ∧
          ¬(s.result ≠ none ∧ s.error ≠ none)) ∧
    (∀ (α : Type) (checkpoints : List ℚ) (outcome : Except String α),
      (finalJob (taskEvents checkpoints outcome)).status = "completed" →
        (finalJob (taskEvents checkpoints outcome)).progress = 1) ∧
    (∀ (α : Type) (calculation_jobs : List (String × JobRec α)) (job_id : String),
      lookupStr job_id calculation_jobs = none →
        get_job_status calculation_jobs job_id
          = Except.error ("Job " ++ job_id ++ " not found")) := by
  refine ⟨?_, ?_, ?_⟩
  · intro α checkpoints outcome
    cases outcome with
    | ok r =>
      have hinv := jobTrace_invariant
        (fun s : JobRec α => (s.status = "queued" ∨ s.status = "running"
            ∨ s.status = "completed" ∨ s.status = "failed") ∧ s.error = none)
        (taskEvents checkpoints (Except.ok r)) (initialJob α)
        ⟨Or.inl rfl, rfl⟩ ?_
      · intro s hs
        obtain ⟨h4, herr⟩ := hinv s hs
        exact ⟨h4, by simp [herr]⟩
      · intro s m hP hm
        simp only [taskEvents, List.mem_append, List.mem_map,
          List.mem_cons, List.mem_singleton, List.not_mem_nil, or_false] at hm
        rcases hm with (rfl | ⟨p, _, rfl⟩) | rfl | rfl | rfl <;>
          first
            | exact ⟨Or.inr (Or.inl rfl), hP.2⟩
            | exact ⟨Or.inr (Or.inr (Or.inl rfl)), hP.2⟩
            | exact ⟨Or.inr (Or.inr (Or.inr rfl)), hP.2⟩
            | exact ⟨hP.1, hP.2⟩
    | error e =>
      have hinv := jobTrace_invariant
        (fun s : JobRec α => (s.status = "queued" ∨ s.status = "running"
            ∨ s.status = "completed" ∨ s.status = "failed") ∧ s.result = none)
        (taskEvents checkpoints (Except.error e)) (initialJob α)
        ⟨Or.inl rfl, rfl⟩ ?_
      · intro s hs
        obtain ⟨h4, hres⟩ := hinv s hs
        exact ⟨h4, by simp [hres]⟩
      · intro s m hP hm
        simp only [taskEvents, List.mem_append, List.mem_map,
          List.mem_cons, List.mem_singleton, List.not_mem_nil, or_false] at hm
        rcases hm with (rfl | ⟨p, _, rfl⟩) | rfl | rfl <;>
          first
            | exact ⟨Or.inr (Or.inl rfl), hP.2⟩
            | exact ⟨Or.inr (Or.inr (Or.inr rfl)), hP.2⟩
            | exact ⟨hP.1, hP.2⟩
  · intro α checkpoints outcome
    cases outcome with
    | ok r =>
      intro _
      simp [finalJob, taskEvents, List.foldl_append, applyMut]
    | error e =>
      intro hc
      exact absurd hc (by
        simp [finalJob, taskEvents, List.foldl_append, applyMut])
  · intro α calculation_jobs job_id h
    simp [get_job_status, h]

/-- Witness for `job_lifecycle_invariants`: the terminal-record part on a
finished risk task and the not-found part on an empty job table. -/
theorem job_lifecycle_invariants_witness :
    (finalJob (taskEvents [1/10] (Except.ok (0 : ℚ)))).progress = 1 ∧
      get_job_status ([] : List (String × JobRec ℚ)) "risk_1_t"
        = Except.error ("Job " ++ "risk_1_t" ++ " not found") :=
  ⟨job_lifecycle_invariants.2.1 ℚ [1/10] (Except.ok 0)
      (by simp [finalJob, taskEvents, applyMut, initialJob]),
    job_lifecycle_invariants.2.2 ℚ [] "risk_1_t" (by simp [lookupStr])⟩

/-! ## Optimization constraints (`optimization/efficient_frontier.py`,
`optimization/constraints.py`) -/

/-- The per-security limits dict `{"min": ..., "max": ...}` that
`build_constraint_set` places under `security_limits` (`constraints.py` lines
62–76): either key may be absent. -/
structure SecLimits where
  minW : Option ℚ
  maxW : Option ℚ
  deriving DecidableEq

/-- The exception text of the failed constraint registration (model text; only
the fact that registration raises matters to the claim). -/
def cvxpyStrIndexErrorMsg : String :=
  "TypeError: string index into the positionally-indexed cvxpy weight variable"

/-- Model of the per-security constraint loop of `apply_constraints`
(`efficient_frontier.py` lines 187–191) under pypfopt's **eager**
registration: `add_constraint(fn)` immediately appends `fn(self._w)`, so each
callback runs inside its own loop iteration and reads the **current**
security's `limits` dict — the bound values are read correctly; there is no
deferred evaluation. The callback body `x[sym] >= limits["min"]` (resp.
`x[sym] <= limits["max"]`) first evaluates `x[sym]`: a ticker-**string**
index into `self._w`, the positionally-indexed cvxpy weight variable, which
raises. The loop therefore raises at the first listed security carrying a
`min` or `max`, registering no constraint; it completes (registering nothing)
only when no listed security carries a bound. -/
def registerSecurityConstraints : List (String × SecLimits) → Except String Unit
  | [] => Except.ok ()
  | sl :: rest =>
    if sl.2.minW.isSome || sl.2.maxW.isSome then Except.error cvxpyStrIndexErrorMsg
    else registerSecurityConstraints rest

/-- Modelled from the spec's words, for comparison with the code's constraint
group: every listed security's **own** min/max bound holds for `w`. -/
def specSecurityConstraintsHold (security_limits : List (String × SecLimits))
    (w : String → ℚ) : Bool :=
  security_limits.all (fun sl =>
    (match sl.2.minW with
      | some m => decide (m ≤ w sl.1)
      | none => true)
    && (match sl.2.maxW with
      | some m => decide (w sl.1 ≤ m)
      | none => true))

/-- Two securities with explicit minimum weights 0.50 and 0.10. -/
def c4Limits : List (String × SecLimits) :=
  [("AAA", ⟨some (1/2), none⟩), ("BBB", ⟨some (1/10), none⟩)]

/-- Candidate weights putting 0.20 on AAA and 0.50 on BBB. -/
def c4Weights : String → ℚ :=
  fun s => if s = "AAA" then 1/5 else if s = "BBB" then 1/2 else 0

/-- Claim C4, evaluated at its failing input (a code bug). With per-security
minima `AAA ≥ 0.50` and `BBB ≥ 0.10`, registering the per-security
constraints raises as soon as the first callback runs — pypfopt's
`add_constraint` evaluates it eagerly and its body string-indexes the
positionally-indexed cvxpy weight variable — so no per-security constraint is
ever added; in general, registration raises whenever **any** listed security
carries a `min` or `max`. In particular candidate weights violating a listed
security's own bound (AAA at 0.20 < 0.50) are never rejected by any
registered constraint, while the claimed semantics (each security's own
bound, as `build_constraint_set` collected them) rejects them. -/
theorem per_security_bounds_never_enforced :
    registerSecurityConstraints c4Limits = Except.error cvxpyStrIndexErrorMsg ∧
      (∀ (security_limits : List (String × SecLimits)) (sym : String)
        (lim : SecLimits), (sym, lim) ∈ security_limits →
        (lim.minW.isSome || lim.maxW.isSome) = true →
        ∃ e, registerSecurityConstraints security_limits = Except.error e) ∧
      specSecurityConstraintsHold c4Limits c4Weights = false := by
  refine ⟨rfl, ?_, ?_⟩
  · intro security_limits sym lim
    induction security_limits with
    | nil =>
      intro hmem _
      exact absurd hmem (List.not_mem_nil _)
    | cons head tail ih =>
      intro hmem hbound
      by_cases hh : (head.2.minW.isSome || head.2.maxW.isSome) = true
      · exact ⟨cvxpyStrIndexErrorMsg, by simp [registerSecurityConstraints, hh]⟩
      · rcases List.mem_cons.mp hmem with heq | hmem2
        · rw [← heq] at hh
          exact absurd hbound hh
        · obtain ⟨e, he⟩ := ih hmem2 hbound
          exact ⟨e, by simp [registerSecurityConstraints, hh, he]⟩
  · norm_num [specSecurityConstraintsHold, c4Limits, c4Weights, List.all_cons]

/-- Witness for `per_security_bounds_never_enforced`: its general part applied
to a single listed security carrying a minimum bound. -/
theorem per_security_bounds_never_enforced_witness :
    ∃ e, registerSecurityConstraints [("AAA", ⟨some (1/2), none⟩)]
      = Except.error e :=
  per_security_bounds_never_enforced.2.1 [("AAA", ⟨some (1/2), none⟩)] "AAA"
    ⟨some (1/2), none⟩ (List.mem_singleton.mpr rfl) rfl

/-! ## Monte-Carlo VaR (`risk/risk_metrics.py`, lines 127–165) -/

/-- Result dictionary of `calculate_monte_carlo_var`; `variance_return` is the
square of the reported `volatility` (see the module comment). -/
structure MCVarResult where
  var : ℚ
  cvar : ℚ
  confidence_level : ℚ
  observations : ℕ
  simulations : ℕ
  var_percentile : ℚ
  mean_return : ℚ
  variance_return : ℚ
  deriving DecidableEq

/-- Model of `calculate_monte_carlo_var(returns_df, confidence_level, num_simulations)`
(`risk_metrics.py` lines 127–165). `np.random.seed(42)` replaces the global
generator state by the state derived from seed 42, discarding whatever state
`rng_state` the process was in; `np.random.normal(mean, σ, n)` is a
deterministic function of that state and the distribution parameters, kept
abstract here as the `sampler` argument (state → mean → variance → count →
draws and successor state) so that every deterministic sampler is covered.
VaR/CVaR are then computed on the simulated sample exactly as in the
historical method (`np.percentile` with linear interpolation; tail mean). -/
def calculate_monte_carlo_var (sampler : ℕ → ℚ → ℚ → ℕ → List ℚ × ℕ)
    (rng_state : ℕ) (returns : List ℚ) (confidence_level : ℚ)
    (num_simulations : ℕ) : MCVarResult × ℕ :=
  let mean_return := sampleMean returns
  let var_return := sampleVariance returns
  let seeded : ℕ := 42
  let sim := sampler seeded mean_return var_return num_simulations
  let var_percentile := 1 - confidence_level
  let var_value := -(quantileSorted (sortQ sim.1) var_percentile)
  let tail := sim.1.filter (fun x => x ≤ -var_value)
  ({ var := var_value
     cvar := -(sampleMean tail)
     confidence_level := confidence_level
     observations := returns.length
     simulations := num_simulations
     var_percentile := var_percentile
     mean_return := mean_return
     variance_return := var_return }, sim.2)

/-- Claim C9: Monte-Carlo VaR is exactly reproducible. For every deterministic
sampler and any two incoming generator states, two calls of
`calculate_monte_carlo_var` with identical return data, confidence level and
simulation count produce identical result dictionaries (every reported
field), because the fixed `np.random.seed(42)` discards the incoming state. -/
theorem monte_carlo_reproducible (sampler : ℕ → ℚ → ℚ → ℕ → List ℚ × ℕ)
    (s1 s2 : ℕ) (returns : List ℚ) (confidence_level : ℚ)
    (num_simulations : ℕ) :
    (calculate_monte_carlo_var sampler s1 returns confidence_level
        num_simulations).1
      = (calculate_monte_carlo_var sampler s2 returns confidence_level
        num_simulations).1 := rfl

end EquityLens
